import Mathlib

/-!
Verification of the Bd-remux-film-encoder core (`src/video_processor.py`,
`src/utils.py`, `src/ffmpeg_configs.py`, `src/validate.py`) against its
natural-language specification.

The Python code is shallowly embedded: Python floats are modelled as exact
rationals (`ℚ`), Python ints as `ℤ`, `int(x)` as truncation toward zero,
`//` as floor division (`Int.fdiv`), strings as Lean `String`s, and the
filesystem / external-process interactions of `encode` as an explicit small
state machine.
-/

namespace BdRemux

/-- Python `int(q)` on an exact rational: truncation toward zero. -/
def pyInt (q : ℚ) : ℤ := if 0 ≤ q then ⌊q⌋ else ⌈q⌉

/-- Exception kinds raised by the code (`utils.py` taxonomy plus the builtin
Python exceptions that appear in `video_processor.py`). -/
inductive ErrKind where
  | probeError
  | encodingError
  | valueError
  | fileExistsError
  | calledProcessError
  | jsonDecodeError
deriving DecidableEq, Repr

/-! ## Bitrate model (`VideoProcessor._calculate_bitrate`, lines 204-306) -/

/-- The fields of `self.video_metadata` consumed by `_calculate_bitrate`
(built in `probe_file`, lines 104-127).  `dovi_profile` is `none` when the
key was never set (then `vm.get("dovi_profile", 5)` yields the default 5). -/
structure VideoMetadata where
  codec_name : String
  height : ℤ
  frame_rate : ℚ
  is_hdr10 : Bool
  is_hlg : Bool
  has_dovi : Bool
  dovi_profile : Option ℤ
  bits_per_raw_sample : ℤ
deriving Repr

/-- The `EncodingConfig` fields consumed by `_calculate_bitrate`
(`utils.py`).  `audio_bitrate_k` is the integer value
`int(config.audio_bitrate.rstrip("k"))` of the audio-bitrate string. -/
structure BitrateConfig where
  target_size_gb : ℚ
  copy_audio : Bool
  audio_bitrate_k : ℤ
  min_video_bitrate : ℤ
  max_video_bitrate : ℤ
deriving Repr

/-- `resolution_multiplier` dictionary lookup (lines 235-239). -/
def resolution_multiplier (height : ℤ) : ℚ :=
  if height = 2160 then 1
  else if height = 1440 then 3/4
  else if height = 1080 then 11/20
  else 7/20

/-- The content-type multiplier before the frame-rate factor
(lines 242-254): DoVi profile 7 → 1.3, other DoVi → 1.2, HDR10 → 1.15,
HLG → 1.1, SDR → 1.0. -/
def content_base_multiplier (vm : VideoMetadata) : ℚ :=
  if vm.has_dovi then
    if vm.dovi_profile.getD 5 = 7 then 13/10 else 12/10
  else if vm.is_hdr10 then 23/20
  else if vm.is_hlg then 11/10
  else 1

/-- The content-type multiplier after the high-frame-rate adjustment
(lines 256-259): a further ×1.5 when `frame_rate > 30`. -/
def content_type_multiplier (vm : VideoMetadata) : ℚ :=
  content_base_multiplier vm * (if vm.frame_rate > 30 then 3/2 else 1)

/-- Bit-depth multiplier (lines 262-265). -/
def bit_depth_multiplier (vm : VideoMetadata) : ℚ :=
  if vm.bits_per_raw_sample ≤ 8 then 1 else 11/10

/-- Codec-efficiency multiplier (line 269). -/
def codec_multiplier (vm : VideoMetadata) : ℚ :=
  if vm.codec_name = "hevc" then 7/10 else 1

/-- The content-sensitive minimum bitrate (lines 287-292). -/
def effective_min (vm : VideoMetadata) (cfg : BitrateConfig) : ℤ :=
  if vm.has_dovi then max 12000000 cfg.min_video_bitrate
  else if vm.is_hdr10 then max 8000000 cfg.min_video_bitrate
  else cfg.min_video_bitrate

/-- `_calculate_bitrate` (lines 204-306).  `probePresent` models
`self.probe_data` being non-`None`, `duration` is `self.duration`,
`audio_streams` the count of audio streams in the probe data.  The
`ValueError("Invalid probe data")` of line 226 becomes `.error .valueError`.
The final `//`-truncation of line 296 is Python floor division. -/
def calculate_bitrate (vm : VideoMetadata) (cfg : BitrateConfig)
    (duration : ℚ) (audio_streams : ℕ) (probePresent : Bool) :
    Except ErrKind ℤ :=
  if !probePresent || duration ≤ 0 then .error .valueError
  else
    let total_bits : ℚ := cfg.target_size_gb * 8 * 1024 ^ 3 * (95/100)
    let audio_bitrate : ℤ := cfg.audio_bitrate_k * 1000
    let total_audio_bits : ℚ :=
      if cfg.copy_audio then (audio_streams : ℚ) * (audio_bitrate : ℚ) * duration else 0
    let target_video_bits : ℚ :=
      (total_bits - total_audio_bits)
        * resolution_multiplier vm.height
        * content_type_multiplier vm
        * bit_depth_multiplier vm
        * codec_multiplier vm
    let target_bitrate : ℤ := pyInt (target_video_bits / duration)
    let min_bitrate : ℤ := effective_min vm cfg
    let clamped : ℤ := max min_bitrate (min target_bitrate cfg.max_video_bitrate)
    .ok ((clamped.fdiv 1000000) * 1000000)

/-- `validate_config` (`validate.py`, lines 112-118): the only numeric
constraint enforced on the configuration is `1 Mbps ≤ min_video_bitrate ≤
30 Mbps`. -/
def validate_config_bitrate (cfg : BitrateConfig) : Bool :=
  1000000 ≤ cfg.min_video_bitrate && cfg.min_video_bitrate ≤ 30000000

/-- Modelled from the spec (§4.2 step 3, §8): the pre-floor content
multiplier table as the specification words it, with the ×1.5
high-frame-rate factor composed onto whichever content multiplier applies. -/
def spec_content_multiplier (vm : VideoMetadata) : ℚ :=
  let base : ℚ :=
    match vm.has_dovi, vm.is_hdr10, vm.is_hlg with
    | true, _, _ => if vm.dovi_profile.getD 5 = 7 then 13/10 else 12/10
    | false, true, _ => 23/20
    | false, false, true => 11/10
    | false, false, false => 1
  if vm.frame_rate > 30 then base * (3/2) else base

/-- C7: the content multiplier computed by `_calculate_bitrate` agrees with
the specification's table on every metadata snapshot: 1.3 for Dolby Vision
profile 7, 1.2 for any other Dolby Vision profile, 1.15 for HDR10-only,
1.1 for HLG-only, 1.0 for plain SDR, with a further ×1.5 whenever
`frame_rate > 30`; the bit-depth and codec multipliers are composed
separately (see `calculate_bitrate`). -/
theorem claim_C7 (vm : VideoMetadata) :
    content_type_multiplier vm = spec_content_multiplier vm := by
  unfold content_type_multiplier content_base_multiplier spec_content_multiplier
  cases h1 : vm.has_dovi <;> cases h2 : vm.is_hdr10 <;> cases h3 : vm.is_hlg <;>
    simp

/-- Metadata of the C1 counterexample: plain SDR, 2160p, 24 fps, 8-bit,
HEVC source. -/
def c1Meta : VideoMetadata :=
  { codec_name := "hevc", height := 2160, frame_rate := 24, is_hdr10 := false,
    is_hlg := false, has_dovi := false, dovi_profile := none,
    bits_per_raw_sample := 8 }

/-- Configuration of the C1 counterexample: `min_video_bitrate = 8_500_000`
(accepted by `validate_config`, which only requires it to lie in
[1 Mbps, 30 Mbps]), tiny target size so the computed bitrate falls below the
floor. -/
def c1Cfg : BitrateConfig :=
  { target_size_gb := 1/10, copy_audio := false, audio_bitrate_k := 384,
    min_video_bitrate := 8500000, max_video_bitrate := 30000000 }

/-- C1 counterexample: with the externally validated configuration `c1Cfg`
(`validate_config` accepts `min_video_bitrate = 8_500_000`), the returned
bitrate is 8,000,000, strictly below `effective_min = 8_500_000` — the
megabit truncation is applied after the clamp and can leave the stated
interval. -/
theorem claim_C1_cex :
    validate_config_bitrate c1Cfg = true ∧
    calculate_bitrate c1Meta c1Cfg 3600 0 true = .ok 8000000 ∧
    effective_min c1Meta c1Cfg = 8500000 ∧
    ¬ (8500000 ≤ (8000000 : ℤ)) := by
  refine ⟨by decide, ?_, by decide, by decide⟩
  unfold calculate_bitrate resolution_multiplier content_type_multiplier
    content_base_multiplier bit_depth_multiplier codec_multiplier effective_min
    c1Meta c1Cfg
  norm_num [pyInt]
  decide

/-- C1 (amended): for every accepted probe/configuration pair, the result of
`calculate_bitrate` lies in `[effective_min, max_video_bitrate]` and is
divisible by 1,000,000 — provided additionally that `min_video_bitrate` is a
multiple of 1,000,000 and the content-sensitive floor does not exceed
`max_video_bitrate`.  Without these extra hypotheses the final megabit
truncation (applied after the clamp) can push the result below
`effective_min` (`claim_C1_cex`), and a Dolby Vision/HDR10 floor above the
configured ceiling yields a result above it. -/
theorem claim_C1 (vm : VideoMetadata) (cfg : BitrateConfig) (duration : ℚ)
    (audio_streams : ℕ) (b : ℤ)
    (hdvd : (1000000 : ℤ) ∣ cfg.min_video_bitrate)
    (hle : effective_min vm cfg ≤ cfg.max_video_bitrate)
    (hok : calculate_bitrate vm cfg duration audio_streams true = .ok b) :
    effective_min vm cfg ≤ b ∧ b ≤ cfg.max_video_bitrate ∧ (1000000 : ℤ) ∣ b := by
  unfold calculate_bitrate at hok
  split at hok
  · exact absurd hok (by simp)
  · simp only [Except.ok.injEq] at hok
    set em : ℤ := effective_min vm cfg with hem
    set t : ℤ := pyInt ((cfg.target_size_gb * 8 * 1024 ^ 3 * (95 / 100) -
      (if cfg.copy_audio then
        (audio_streams : ℚ) * ((cfg.audio_bitrate_k * 1000 : ℤ) : ℚ) * duration
      else 0)) * resolution_multiplier vm.height * content_type_multiplier vm *
      bit_depth_multiplier vm * codec_multiplier vm / duration) with ht
    have hemd : (1000000 : ℤ) ∣ em := by
      rw [hem]
      unfold effective_min
      split
      · rcases max_choice (12000000 : ℤ) cfg.min_video_bitrate with h | h <;>
          rw [h]
        · decide
        · exact hdvd
      · split
        · rcases max_choice (8000000 : ℤ) cfg.min_video_bitrate with h | h <;>
            rw [h]
          · decide
          · exact hdvd
        · exact hdvd
    set c : ℤ := max em (min t cfg.max_video_bitrate) with hc
    have h1 : em ≤ c := le_max_left _ _
    have h2 : c ≤ cfg.max_video_bitrate :=
      max_le hle (min_le_right _ _)
    have hfd : c.fdiv 1000000 = c / 1000000 := Int.fdiv_eq_ediv c (by norm_num)
    rw [hfd] at hok
    obtain ⟨k, hk⟩ := hemd
    have h3 : 1000000 * (c / 1000000) + c % 1000000 = c := Int.ediv_add_emod c 1000000
    have h4 : 0 ≤ c % 1000000 := Int.emod_nonneg c (by norm_num)
    have h5 : c % 1000000 < 1000000 := Int.emod_lt_of_pos c (by norm_num)
    refine ⟨?_, ?_, ?_⟩
    · omega
    · omega
    · exact ⟨c / 1000000, by rw [← hok]; ring⟩

/-- Metadata used by the C1 witness: Dolby Vision profile 7, 2160p, 10-bit
HEVC. -/
def c1wMeta : VideoMetadata :=
  { codec_name := "hevc", height := 2160, frame_rate := 24, is_hdr10 := false,
    is_hlg := false, has_dovi := true, dovi_profile := some 7,
    bits_per_raw_sample := 10 }

/-- Configuration used by the C1 witness: the defaults of `EncodingConfig`. -/
def c1wCfg : BitrateConfig :=
  { target_size_gb := 25, copy_audio := true, audio_bitrate_k := 384,
    min_video_bitrate := 8000000, max_video_bitrate := 30000000 }

/-- Witness for `claim_C1` at a concrete accepted input. -/
theorem claim_C1_witness :
    ((1000000 : ℤ) ∣ c1wCfg.min_video_bitrate) ∧
    effective_min c1wMeta c1wCfg ≤ c1wCfg.max_video_bitrate ∧
    (effective_min c1wMeta c1wCfg ≤ 30000000 ∧
      (30000000 : ℤ) ≤ c1wCfg.max_video_bitrate ∧ (1000000 : ℤ) ∣ 30000000) :=
  ⟨by decide, by decide,
    claim_C1 c1wMeta c1wCfg 3600 2 30000000 (by decide) (by decide) (by
      unfold calculate_bitrate resolution_multiplier content_type_multiplier
        content_base_multiplier bit_depth_multiplier codec_multiplier
        effective_min c1wMeta c1wCfg
      norm_num [pyInt]
      decide)⟩

/-! ## Frame-rate derivation (`probe_file`, line 108)

The code computes `eval(str(video_stream.get("r_frame_rate", "24/1")))`:
a general-purpose expression evaluation of the prober's string.  We embed
that evaluation restricted to the arithmetic fragment relevant here —
non-negative integer literals combined left-to-right with `+` and `/`
(Python true division on ints yields an exact rational) — together with the
strict parse the specification demands. -/

/-- Longest leading run of decimal digits of a character list, with the
remainder. -/
def spanDigits (l : List Char) : List Char × List Char :=
  (l.takeWhile Char.isDigit, l.dropWhile Char.isDigit)

/-- Numeric value of a list of decimal digit characters. -/
def natOfDigits (l : List Char) : ℕ :=
  l.foldl (fun acc c => 10 * acc + (c.toNat - 48)) 0

/-- Operator/operand chain evaluation for `evalPyArith` (fuel-bounded; the
fuel is the length of the remaining input plus one). -/
def evalChain : ℕ → ℚ → List Char → Option ℚ
  | 0, _, _ => none
  | _ + 1, acc, [] => some acc
  | fuel + 1, acc, c :: rest =>
    let p := spanDigits rest
    if p.1.isEmpty then none
    else if c = '+' then evalChain fuel (acc + natOfDigits p.1) p.2
    else if c = '/' then
      if natOfDigits p.1 = 0 then none
      else evalChain fuel (acc / natOfDigits p.1) p.2
    else none

/-- Model of the general-purpose expression evaluation (Python `eval`) that
`probe_file` applies to the prober's `r_frame_rate` string, restricted to
the arithmetic fragment of non-negative integer literals with `+` and `/`
(left-associative, exact division; division by zero fails). -/
def evalPyArith (s : String) : Option ℚ :=
  let p := spanDigits s.data
  if p.1.isEmpty then none else evalChain (p.2.length + 1) (natOfDigits p.1) p.2

/-- Split a character list on `/` separators. -/
def splitSlash : List Char → List (List Char)
  | [] => [[]]
  | c :: rest =>
    match splitSlash rest with
    | [] => if c = '/' then [[], [c]] else [[c]]
    | h :: t => if c = '/' then [] :: h :: t else (c :: h) :: t

/-- Modelled from the spec (§4.1, §9): the strict
`"numerator/denominator"` parse of the frame-rate string that the
specification requires in place of the expression evaluation — exactly two
`/`-separated non-empty all-digit fields, failing explicitly otherwise. -/
def parse_frame_rate (s : String) : Option (ℕ × ℕ) :=
  match splitSlash s.data with
  | [a, b] =>
    if !a.isEmpty && a.all Char.isDigit && !b.isEmpty && b.all Char.isDigit then
      some (natOfDigits a, natOfDigits b)
    else none
  | _ => none

/-- C2: on the well-formed input `"24/1"` the expression evaluation and the
strict parse agree, but on the malformed input `"1+1"` the code's
general-purpose evaluation succeeds (yielding 2) where the specified strict
numerator/denominator parse fails explicitly — the Metadata Extractor does
not implement the strict parse the claim states. -/
theorem claim_C2 :
    evalPyArith "24/1" = some 24 ∧
    parse_frame_rate "24/1" = some (24, 1) ∧
    evalPyArith "1+1" = some 2 ∧
    parse_frame_rate "1+1" = none := by
  have h1 : spanDigits "24/1".data = (['2', '4'], ['/', '1']) := by decide
  have h1' : spanDigits "1+1".data = (['1'], ['+', '1']) := by decide
  have h2 : spanDigits ['1'] = (['1'], []) := by decide
  have t1 : '2'.toNat - 48 = 2 := by decide
  have t2 : '4'.toNat - 48 = 4 := by decide
  have t3 : '1'.toNat - 48 = 1 := by decide
  have hne : ¬ ('/' : Char) = '+' := by decide
  refine ⟨?_, by decide, ?_, by decide⟩
  · rw [evalPyArith, h1]
    norm_num [evalChain, h2, natOfDigits, t1, t2, t3, hne]
  · rw [evalPyArith, h1']
    norm_num [evalChain, h2, natOfDigits, t3]

/-! ## Retry supervision (`tenacity` decorators, lines 58-63 and 577-582)

The `tenacity` retry decorator is an external collaborator; following the
specification (§4.5, §7) it is modelled as a bounded retry combinator: the
wrapped body is attempted up to `stopAfter` times, an error for which the
`retry_if_exception_type` predicate holds triggers another attempt (after a
backoff delay, irrelevant to these claims), any other error — and the error
of the final permitted attempt — is surfaced to the caller. -/

/-- One run of the retry combinator: `attempt` is the 1-based attempt
number, `remaining` the number of further attempts allowed.  Returns the
number of the last attempt made, the final state, and the final outcome. -/
def tenacityGo {σ α : Type} (retriable : ErrKind → Bool)
    (body : ℕ → σ → σ × Except ErrKind α) :
    ℕ → ℕ → σ → ℕ × σ × Except ErrKind α
  | attempt, remaining, s =>
    let s2 := (body attempt s).1
    match (body attempt s).2 with
    | .ok a => (attempt, s2, .ok a)
    | .error e =>
      match remaining with
      | 0 => (attempt, s2, .error e)
      | rem + 1 =>
        if retriable e then tenacityGo retriable body (attempt + 1) rem s2
        else (attempt, s2, .error e)

/-- `@retry(retry=retry_if_exception_type(...), stop=stop_after_attempt(n),
wait=wait_exponential(...))` applied to `body`. -/
def tenacityCall {σ α : Type} (retriable : ErrKind → Bool) (stopAfter : ℕ)
    (body : ℕ → σ → σ × Except ErrKind α) (s : σ) :
    ℕ × σ × Except ErrKind α :=
  tenacityGo retriable body 1 (stopAfter - 1) s

/-- The retry predicate of the `probe_file` decorator (lines 58-63):
`retry_if_exception_type((subprocess.CalledProcessError,
json.JSONDecodeError))`. -/
def probe_retriable (e : ErrKind) : Bool :=
  e == .calledProcessError || e == .jsonDecodeError

/-- The retry predicate of the `encode` decorator (lines 577-582):
`retry_if_exception_type(EncodingError)`. -/
def encode_retriable (e : ErrKind) : Bool := e == .encodingError

/-- The body of `probe_file` (lines 74-139), abstracted over the external
prober's outcome per attempt: a `CalledProcessError` or `JSONDecodeError`
is caught by the `except` clause of lines 138-139 and re-raised as
`ProbeError`; any other outcome passes through. -/
def probe_file_body (prober : ℕ → Except ErrKind Unit) (attempt : ℕ)
    (s : Unit) : Unit × Except ErrKind Unit :=
  (s, match prober attempt with
      | .ok u => .ok u
      | .error e =>
        if e == .calledProcessError || e == .jsonDecodeError then
          .error .probeError
        else .error e)

/-- `probe_file` under its decorator: `stop_after_attempt(3)` with the
`probe_retriable` predicate. -/
def probe_file_run (prober : ℕ → Except ErrKind Unit) :
    ℕ × Unit × Except ErrKind Unit :=
  tenacityCall probe_retriable 3 (probe_file_body prober) ()

/-- C3: with a prober that fails every attempt with `CalledProcessError`,
the decorated `probe_file` makes exactly one attempt and surfaces
`ProbeError` without any retry — because the body converts
`CalledProcessError`/`JSONDecodeError` into `ProbeError` before the
decorator sees them, and the decorator only retries the former two kinds
(second conjunct: the same decorator would have retried a raw
`CalledProcessError` the full 3 attempts).  The claimed bounded probe retry
(more attempts than encoding) therefore never happens. -/
theorem claim_C3 :
    probe_file_run (fun _ => .error .calledProcessError) =
      (1, (), .error .probeError) ∧
    tenacityCall probe_retriable 3
        (fun _ (s : Unit) =>
          (s, (.error .calledProcessError : Except ErrKind Unit))) () =
      (3, (), .error .calledProcessError) := by
  constructor <;> rfl

/-! ## The encode supervisor (`encode`, lines 577-622)

One `encode` attempt is modelled as a transition on a small session state:
whether probe data is cached (`self.probe_data`) and the state of the file
at the output path.  The external world of one attempt (prober success,
valid state for bitrate/command derivation, stall, encoder exit code,
whether the encoder wrote the output file) is an `AttemptEnv`, supplied per
attempt number so that retries may face different worlds. -/

/-- State of the file at the output path. -/
inductive FileState where
  | absent
  | empty
  | nonEmpty
deriving DecidableEq, Repr

/-- The per-attempt external world of `encode`.  `outputProbeOk` is the
outcome of the final `ffprobe` re-probe of the output in `_verify_output`
(line 573, `check=True`: its failure raises `CalledProcessError`). -/
structure AttemptEnv where
  probeOk : Bool
  validState : Bool
  stalls : Bool
  exitCode : ℤ
  writesOutput : Bool
  outputProbeOk : Bool
deriving Repr

/-- The mutable session state threaded through `encode` attempts. -/
structure SessionState where
  probeCached : Bool
  fs : FileState
deriving DecidableEq, Repr

/-- Result of one `encode` attempt, with observation flags recording
whether the attempt probed the input and whether it spawned the encoder. -/
structure AttemptOutcome where
  state : SessionState
  result : Except ErrKind Unit
  probed : Bool
  spawned : Bool

/-- One attempt of `encode` (lines 583-622), following the body in order:
`_validate_output_path` (raises `FileExistsError` when the output file
exists non-empty, line 537-538), probing when no probe data is cached
(lines 599-600, `ProbeError` on failure), `_calculate_bitrate` /
`_build_command` (`ValueError` when the state is invalid),
`subprocess.Popen` plus `_monitor_encoding_process` (stall raises
`EncodingError`, line 564) and `_verify_output` (nonzero exit code or
missing output raise `EncodingError`, lines 566-575).  Any exception runs
the `except` handler of lines 617-622, which deletes the output file when
it exists and re-raises. -/
def encode_attempt (env : AttemptEnv) (s : SessionState) : AttemptOutcome :=
  if s.fs = .nonEmpty then
    { state := ⟨s.probeCached, .absent⟩, result := .error .fileExistsError,
      probed := false, spawned := false }
  else if !s.probeCached && !env.probeOk then
    { state := ⟨s.probeCached, .absent⟩, result := .error .probeError,
      probed := true, spawned := false }
  else if !env.validState then
    { state := ⟨true, .absent⟩, result := .error .valueError,
      probed := !s.probeCached, spawned := false }
  else if env.stalls then
    { state := ⟨true, .absent⟩, result := .error .encodingError,
      probed := !s.probeCached, spawned := true }
  else if env.exitCode ≠ 0 then
    { state := ⟨true, .absent⟩, result := .error .encodingError,
      probed := !s.probeCached, spawned := true }
  else if (if env.writesOutput then FileState.nonEmpty else s.fs) = .absent then
    { state := ⟨true, .absent⟩, result := .error .encodingError,
      probed := !s.probeCached, spawned := true }
  else if !env.outputProbeOk then
    { state := ⟨true, .absent⟩, result := .error .calledProcessError,
      probed := !s.probeCached, spawned := true }
  else
    { state := ⟨true, if env.writesOutput then FileState.nonEmpty else s.fs⟩,
      result := .ok (), probed := !s.probeCached, spawned := true }

/-- The attempt body in the shape expected by the retry combinator. -/
def encode_body (env : ℕ → AttemptEnv) (attempt : ℕ) (s : SessionState) :
    SessionState × Except ErrKind Unit :=
  ((encode_attempt (env attempt) s).state, (encode_attempt (env attempt) s).result)

/-- `encode` under its decorator (lines 577-582): `stop_after_attempt(2)`
retrying only `EncodingError`. -/
def encode_run (env : ℕ → AttemptEnv) (s : SessionState) :
    ℕ × SessionState × Except ErrKind Unit :=
  tenacityCall encode_retriable 2 (encode_body env) s

/-- Every branch of an `encode` attempt either succeeds or leaves the
output path empty. -/
theorem encode_attempt_cases (env : AttemptEnv) (s : SessionState) :
    (encode_attempt env s).state.fs = .absent ∨
    (encode_attempt env s).result = .ok () := by
  unfold encode_attempt
  repeat' split
  all_goals first | exact Or.inl rfl | exact Or.inr rfl

/-- An erroring `encode` attempt always leaves the output path empty: the
`except` handler deletes any file there before re-raising. -/
theorem encode_attempt_error_fs (env : AttemptEnv) (s : SessionState)
    (e : ErrKind) (h : (encode_attempt env s).result = .error e) :
    (encode_attempt env s).state.fs = .absent := by
  rcases encode_attempt_cases env s with hfs | hok
  · exact hfs
  · rw [h] at hok
    exact absurd hok (by simp)

/-- An `encode` attempt facing a nonzero encoder exit code (with probing
and derivation succeeding) fails with `EncodingError` and leaves the output
path empty. -/
theorem encode_attempt_nonzero (env : AttemptEnv) (s : SessionState)
    (h0 : s.fs ≠ .nonEmpty) (hp : env.probeOk = true)
    (hv : env.validState = true) (hx : env.exitCode ≠ 0) :
    encode_attempt env s =
      { state := ⟨true, .absent⟩, result := .error .encodingError,
        probed := !s.probeCached, spawned := true } := by
  cases hst : env.stalls <;> cases hw : env.writesOutput <;>
    unfold encode_attempt <;>
    simp [h0, hp, hv, hst, hw, hx]

/-- C4: against an encoder process that exits nonzero on every attempt
(probing and command derivation succeeding), `encode` makes exactly the
retry ceiling of 2 attempts, surfaces a terminal `EncodingError`, and no
file exists at the output path afterwards. -/
theorem claim_C4 (env : ℕ → AttemptEnv) (s : SessionState)
    (h0 : s.fs ≠ .nonEmpty)
    (hp : ∀ n, (env n).probeOk = true)
    (hv : ∀ n, (env n).validState = true)
    (hx : ∀ n, (env n).exitCode ≠ 0) :
    encode_run env s = (2, ⟨true, .absent⟩, .error .encodingError) := by
  have h1 := encode_attempt_nonzero (env 1) s h0 (hp 1) (hv 1) (hx 1)
  have h2 := encode_attempt_nonzero (env 2) ⟨true, .absent⟩ (by simp)
    (hp 2) (hv 2) (hx 2)
  unfold encode_run tenacityCall tenacityGo encode_body
  rw [h1]
  simp only [encode_retriable]
  unfold tenacityGo
  rw [h2]
  rfl

/-- Witness for `claim_C4`: a concrete always-failing world. -/
theorem claim_C4_witness :
    (⟨false, FileState.absent⟩ : SessionState).fs ≠ .nonEmpty ∧
    encode_run
        (fun _ => ⟨true, true, false, 1, true, true⟩)
        ⟨false, .absent⟩ = (2, ⟨true, .absent⟩, .error .encodingError) :=
  ⟨by decide,
    claim_C4 (fun _ => ⟨true, true, false, 1, true, true⟩) ⟨false, .absent⟩
      (by decide) (fun _ => rfl) (fun _ => rfl)
      (fun _ => show (1 : ℤ) ≠ 0 by decide)⟩

/-- C9: when the output path already references a non-empty file, `encode`
fails on its first attempt with `FileExistsError` — a kind distinct from
`ProbeError`/`EncodingError` that the decorator never retries — before
probing and before spawning the encoder. -/
theorem claim_C9 (env : ℕ → AttemptEnv) (s : SessionState)
    (h : s.fs = .nonEmpty) :
    encode_run env s = (1, ⟨s.probeCached, .absent⟩, .error .fileExistsError) ∧
    (encode_attempt (env 1) s).probed = false ∧
    (encode_attempt (env 1) s).spawned = false ∧
    encode_retriable .fileExistsError = false ∧
    ErrKind.fileExistsError ≠ .probeError ∧
    ErrKind.fileExistsError ≠ .encodingError := by
  have h1 : encode_attempt (env 1) s =
      { state := ⟨s.probeCached, .absent⟩, result := .error .fileExistsError,
        probed := false, spawned := false } := by
    unfold encode_attempt
    rw [if_pos h]
  refine ⟨?_, by rw [h1], by rw [h1], by decide, by decide, by decide⟩
  unfold encode_run tenacityCall tenacityGo encode_body
  rw [h1]
  rfl

/-- Witness for `claim_C9`: a pre-existing non-empty output file. -/
theorem claim_C9_witness :
    (⟨false, FileState.nonEmpty⟩ : SessionState).fs = .nonEmpty ∧
    encode_run (fun _ => ⟨true, true, false, 0, true, true⟩) ⟨false, .nonEmpty⟩ =
      (1, ⟨false, .absent⟩, .error .fileExistsError) :=
  ⟨rfl,
    (claim_C9 (fun _ => ⟨true, true, false, 0, true, true⟩) ⟨false, .nonEmpty⟩
      rfl).1⟩

/-- The retry loop of `encode` preserves attempt-level cleanup: whenever it
surfaces an error, the output path is empty. -/
theorem encode_go_error_fs (env : ℕ → AttemptEnv) :
    ∀ (rem attempt : ℕ) (s : SessionState) (e : ErrKind),
    (tenacityGo encode_retriable (encode_body env) attempt rem s).2.2 = .error e →
    (tenacityGo encode_retriable (encode_body env) attempt rem s).2.1.fs = .absent := by
  intro rem
  induction rem with
  | zero =>
    intro attempt s e h
    unfold tenacityGo at h ⊢
    revert h
    cases hb : (encode_body env attempt s).2 with
    | ok a => simp [hb]
    | error e2 =>
      simp only [hb]
      intro _
      exact encode_attempt_error_fs (env attempt) s e2
        (by simpa [encode_body] using hb)
  | succ n ih =>
    intro attempt s e h
    unfold tenacityGo at h ⊢
    revert h
    cases hb : (encode_body env attempt s).2 with
    | ok a => simp [hb]
    | error e2 =>
      simp only [hb]
      by_cases hr : encode_retriable e2 = true
      · simp only [hr, if_true]
        exact fun h => ih (attempt + 1) _ e h
      · rw [if_neg (by simp [hr])]
        intro _
        exact encode_attempt_error_fs (env attempt) s e2
          (by simpa [encode_body] using hb)

/-- C10: whenever `encode` raises any exception to its caller, no file
exists at the output path at that moment — in particular a non-empty file
that existed at the output path before the call has been deleted by the
failing call rather than left in place (the witness instantiates exactly
that case). -/
theorem claim_C10 (env : ℕ → AttemptEnv) (s : SessionState) (e : ErrKind)
    (h : (encode_run env s).2.2 = .error e) :
    (encode_run env s).2.1.fs = .absent :=
  encode_go_error_fs env 1 1 s e h

/-- Witness for `claim_C10`: a call whose output path held a non-empty file
beforehand raises, and afterwards the file is gone. -/
theorem claim_C10_witness :
    (encode_run (fun _ => ⟨true, true, false, 0, true, true⟩)
        ⟨false, .nonEmpty⟩).2.2 = .error .fileExistsError ∧
    (encode_run (fun _ => ⟨true, true, false, 0, true, true⟩)
        ⟨false, .nonEmpty⟩).2.1.fs = .absent :=
  ⟨rfl,
    claim_C10 (fun _ => ⟨true, true, false, 0, true, true⟩) ⟨false, .nonEmpty⟩
      .fileExistsError rfl⟩

/-! ## The stall watchdog (`_monitor_encoding_process`, lines 541-564)

The diagnostic stream is modelled as a finite trace of timed lines: each
element is one line returned by `process.stderr.readline()` together with
its arrival time in seconds; the end of the list is end-of-stream with the
process exited (the `break` of line 551).  Since the loop body runs
immediately after a line arrives, `time.time()` at the stall check of
line 562 is the arrival time of the line just processed. -/

/-- Does `needle` occur as a contiguous substring of the character list?
(the Python `in` operator on strings). -/
def containsSub (needle : List Char) : List Char → Bool
  | [] => needle.isEmpty
  | c :: rest => needle.isPrefixOf (c :: rest) || containsSub needle rest

/-- Python `needle in hay` for strings. -/
def pyIn (needle hay : String) : Bool := containsSub needle.data hay.data

/-- Python regex `\s` on ASCII input. -/
def isPySpace (c : Char) : Bool :=
  c = ' ' || c = '\t' || c = '\n' || c = '\r' || c = '\x0b' || c = '\x0c'

/-- Search for the pattern `frame=\s*(\d+)` anywhere in the character
list: some occurrence of the literal `frame=` followed by optional
whitespace and at least one digit. -/
def frameSearch : List Char → Bool
  | [] => false
  | c :: rest =>
    ("frame=".data.isPrefixOf (c :: rest) &&
      ((((c :: rest).drop 6).dropWhile isPySpace).headD ' ').isDigit)
    || frameSearch rest

/-- `progress_pattern.search(line)` succeeds: the line matches the
frame-progress pattern `re.compile(r"frame=\s*(\d+)")` of line 546. -/
def matchesFramePattern (s : String) : Bool := frameSearch s.data

/-- One diagnostic line with its arrival time (seconds). -/
structure TimedLine where
  t : ℕ
  line : String
deriving DecidableEq, Repr

/-- Outcome of the monitor loop: the stream ended with the process exited,
or the watchdog terminated the process at time `t` raising
`EncodingError("Encoding stalled")`. -/
inductive MonResult where
  | finished
  | stalled (t : ℕ)
deriving DecidableEq, Repr

/-- `_monitor_encoding_process` (lines 541-564) over a timed trace:
a line containing the substring `"frame="` resets `last_progress` to its
arrival time (line 554-555 — note the reset is keyed on `"frame=" in
line`, not on the progress pattern, which is only used to extract the
frame number for logging); after processing each line the loop checks
`time.time() - last_progress > encoding_timeout_seconds` and terminates
the process raising the stalled `EncodingError` (lines 562-564). -/
def monitor_encoding_process (timeout lastProgress : ℕ) :
    List TimedLine → MonResult
  | [] => .finished
  | e :: rest =>
    if timeout < e.t - (if pyIn "frame=" e.line then e.t else lastProgress) then
      .stalled e.t
    else
      monitor_encoding_process timeout
        (if pyIn "frame=" e.line then e.t else lastProgress) rest

/-- The time of the last `"frame="`-containing line of a trace prefix
(`lastProgress` when there is none). -/
def lastResetTime (lp : ℕ) : List TimedLine → ℕ
  | [] => lp
  | e :: rest => lastResetTime (if pyIn "frame=" e.line then e.t else lp) rest

/-- Some line of the trace arrives strictly more than `timeout` seconds
after the most recent `"frame="`-containing line up to and including
itself (monitoring start when there is none). -/
def StallsSpec (timeout lp : ℕ) (events : List TimedLine) : Prop :=
  ∃ pre e post, events = pre ++ e :: post ∧
    timeout < e.t - lastResetTime lp (pre ++ [e])

/-- The trace refuting C5 as stated: lines containing `"frame="` but never
matching the frame-progress pattern, 30 seconds apart, spanning 70 seconds
from monitoring start. -/
def c5Trace : List TimedLine :=
  [⟨10, "frame=abc"⟩, ⟨40, "frame=abc"⟩, ⟨70, "frame=abc"⟩]

/-- C5 counterexample: on `c5Trace` no line matching the frame-progress
pattern ever arrives — in particular none within the default 30-second
stall window, although monitoring spans 70 seconds — yet the monitor never
terminates the process: the progress-timer reset is keyed on the substring
`"frame="`, not on the frame-progress pattern the claim names. -/
theorem claim_C5_cex :
    monitor_encoding_process 30 0 c5Trace = .finished ∧
    c5Trace.all (fun e => !matchesFramePattern e.line) = true ∧
    (30 : ℕ) < 70 - 0 := by
  refine ⟨by decide, by decide, by decide⟩

/-- C5 (amended): the watchdog check runs only when a diagnostic line
arrives, and its progress resets are keyed on the substring `"frame="`:
the monitor terminates the process and raises the stalled `EncodingError`
exactly when some line of the trace arrives strictly more than the window
after the most recent `"frame="`-containing line (monitoring start if
none).  In particular a trace whose `"frame="`-containing lines and
subsequent lines are never separated by more than the window is never
terminated, a pattern-less `"frame="` line keeps the watchdog at bay, and
a stream that simply ends is never terminated retroactively. -/
theorem claim_C5 (timeout lp : ℕ) (events : List TimedLine) :
    (∃ t, monitor_encoding_process timeout lp events = .stalled t) ↔
    StallsSpec timeout lp events := by
  induction events generalizing lp with
  | nil =>
    constructor
    · rintro ⟨t, h⟩
      exact absurd h (by simp [monitor_encoding_process])
    · rintro ⟨pre, e, post, h, _⟩
      exact absurd h (by simp)
  | cons e rest ih =>
    by_cases hc :
        timeout < e.t - (if pyIn "frame=" e.line then e.t else lp)
    · refine iff_of_true ⟨e.t, ?_⟩
        ⟨[], e, rest, rfl, ?_⟩
      · rw [monitor_encoding_process, if_pos hc]
      · simpa [lastResetTime] using hc
    · have hmon : monitor_encoding_process timeout lp (e :: rest) =
          monitor_encoding_process timeout
            (if pyIn "frame=" e.line then e.t else lp) rest := by
        rw [monitor_encoding_process, if_neg hc]
      rw [hmon]
      rw [ih]
      constructor
      · rintro ⟨pre, e2, post, hdec, hlt⟩
        exact ⟨e :: pre, e2, post, by rw [List.cons_append, hdec],
          by simpa [lastResetTime] using hlt⟩
      · rintro ⟨pre, e2, post, hdec, hlt⟩
        cases pre with
        | nil =>
          simp only [List.nil_append, List.cons.injEq] at hdec
          rw [hdec.1] at hc
          exact absurd (by simpa [lastResetTime] using hlt) hc
        | cons p pre2 =>
          simp only [List.cons_append, List.cons.injEq] at hdec
          refine ⟨pre2, e2, post, hdec.2, ?_⟩
          have h2 := hlt
          rw [← hdec.1] at h2
          simpa [lastResetTime] using h2

/-! ## Probed streams and Dolby Vision detection

Only the fields consumed by the command builder and the two Dolby Vision
detection sites are modelled. -/

/-- One entry of a stream's `side_data_list` in the probe report.  `none`
models an absent key (then `.get(key, default)` yields the default). -/
structure SideData where
  side_data_type : String
  dv_profile : Option ℤ
  dv_bl_present_flag : Option ℤ
  dv_el_present_flag : Option ℤ
  dv_bl_signal_compatibility_id : Option ℤ
deriving DecidableEq, Repr

/-- One probed stream (`StreamDict`): the fields read by
`_get_stream_indexes`, `_check_dolby_vision` and the settings builders.
`tags_language` is `tags.get("language", "")` (absent tags give `none`). -/
structure StreamRec where
  index : ℤ
  codec_type : String
  tags_language : Option String
  color_space : Option String
  color_transfer : Option String
  color_primaries : Option String
  side_data_list : List SideData
deriving DecidableEq, Repr

/-- The Dolby Vision attributes set on the processor by
`_check_dolby_vision` (initial values `False`/`None`). -/
structure DVState where
  has_dolby_vision : Bool
  dv_profile : Option ℤ
  dv_bl_present_flag : Option ℤ
  dv_el_present_flag : Option ℤ
  dv_bl_signal_compatibility_id : Option ℤ
deriving DecidableEq, Repr

/-- `_check_dolby_vision` (lines 165-194): take the first stream whose
`codec_type` is `"video"`; in its `side_data_list` take the first entry
whose `side_data_type` equals `"DOVI configuration record"`; when found,
set the flag and read the four fields with default 0. -/
def check_dolby_vision (streams : List StreamRec) : DVState :=
  match streams.find? (fun s => s.codec_type == "video") with
  | none => ⟨false, none, none, none, none⟩
  | some vs =>
    match vs.side_data_list.find?
        (fun sd => sd.side_data_type == "DOVI configuration record") with
    | none => ⟨false, none, none, none, none⟩
    | some sd =>
      ⟨true, some (sd.dv_profile.getD 0), some (sd.dv_bl_present_flag.getD 0),
        some (sd.dv_el_present_flag.getD 0),
        some (sd.dv_bl_signal_compatibility_id.getD 0)⟩

/-! ## Python string rendering helpers -/

/-- The decimal digit character of a value below ten. -/
def digitChar10 (n : ℕ) : Char :=
  if n = 0 then '0' else if n = 1 then '1' else if n = 2 then '2'
  else if n = 3 then '3' else if n = 4 then '4' else if n = 5 then '5'
  else if n = 6 then '6' else if n = 7 then '7' else if n = 8 then '8'
  else '9'

/-- Decimal digits of `n` (fuel-bounded; fuel `n + 1` suffices). -/
def natDigits : ℕ → ℕ → List Char
  | 0, _ => []
  | f + 1, n =>
    if n < 10 then [digitChar10 n]
    else natDigits f (n / 10) ++ [digitChar10 (n % 10)]

/-- Python `str` of a non-negative integer. -/
def pyStrNat (n : ℕ) : String := ⟨natDigits (n + 1) n⟩

/-- Python `str` of an integer. -/
def pyStrInt (i : ℤ) : String :=
  if i < 0 then "-" ++ pyStrNat i.natAbs else pyStrNat i.toNat

/-- Python `str` of an optional integer attribute: `str(None) = "None"`. -/
def pyStrOptInt (v : Option ℤ) : String :=
  match v with
  | none => "None"
  | some n => pyStrInt n

/-- Python `sep.join(xs)`: the tail of the join, each element preceded by
the separator. -/
def pyJoinRest (sep : String) : List String → String
  | [] => ""
  | x :: xs => sep ++ x ++ pyJoinRest sep xs

/-- Python `sep.join(xs)`. -/
def pyJoin (sep : String) : List String → String
  | [] => ""
  | x :: xs => x ++ pyJoinRest sep xs

/-- Python `str.lower()` (ASCII). -/
def pyLower (s : String) : String := ⟨s.data.map Char.toLower⟩

/-! ## The command builder (`_build_command` and helpers, lines 308-530) -/

/-- The `EncodingPreset` enumeration (`utils.py`). -/
inductive EncodingPreset where
  | ultrafast | superfast | veryfast | faster | fast | medium | slow
  | slower | veryslow
deriving DecidableEq, Repr

/-- `.value` of an `EncodingPreset`. -/
def EncodingPreset.value : EncodingPreset → String
  | .ultrafast => "ultrafast"
  | .superfast => "superfast"
  | .veryfast => "veryfast"
  | .faster => "faster"
  | .fast => "fast"
  | .medium => "medium"
  | .slow => "slow"
  | .slower => "slower"
  | .veryslow => "veryslow"

/-- The `EncodingPresetVideotoolbox` enumeration (`utils.py`). -/
inductive EncodingPresetVideotoolbox where
  | low | medium | slow
deriving DecidableEq, Repr

/-- `.value` of an `EncodingPresetVideotoolbox`. -/
def EncodingPresetVideotoolbox.value : EncodingPresetVideotoolbox → String
  | .low => "low"
  | .medium => "medium"
  | .slow => "slow"

/-- The `EncodingConfig` fields consumed by the command builder
(`utils.py`).  `hdr_max_cll`/`hdr_master_display` are the two entries of
`hdr_params`. -/
structure CommandConfig where
  copy_audio : Bool
  copy_subtitles : Bool
  english_audio_only : Bool
  english_subtitles_only : Bool
  use_hardware_acceleration : Bool
  hardware_encoder : String
  fallback_encoder : String
  quality_preset : EncodingPresetVideotoolbox
  allow_sw_fallback : Bool
  audio_codec : String
  audio_bitrate : String
  preset : EncodingPreset
  hdr_max_cll : String
  hdr_master_display : String
  realtime : String
  b_frames : String
  max_ref_frames : String
  group_of_pictures : String
deriving Repr

/-- The language filter of `_get_stream_indexes` (lines 157-158):
`tags.get("language", "").lower() in {"eng", "english"}`. -/
def english_ok (s : StreamRec) : Bool :=
  pyLower (s.tags_language.getD "") == "eng" ||
  pyLower (s.tags_language.getD "") == "english"

/-- Stream admission of `_get_stream_indexes` (lines 154-161). -/
def include_stream (cfg : CommandConfig) (s : StreamRec) : Bool :=
  if (cfg.english_audio_only && s.codec_type == "audio") ||
      (cfg.english_subtitles_only && s.codec_type == "subtitle") then
    english_ok s
  else true

/-- `_get_stream_indexes` (lines 141-163), one category at a time: the
indices of the streams of `codec_type` `ty` admitted by the filter, in
stream order. -/
def get_stream_indexes (cfg : CommandConfig) (streams : List StreamRec)
    (ty : String) : List ℤ :=
  ((streams.filter (fun s => s.codec_type == ty)).filter
    (include_stream cfg)).map StreamRec.index

/-- `_build_base_command` (lines 371-386).  The Python indexes
`stream_indexes["video"][0]`; it is only reached after `_get_video_stream`
has checked a video stream exists, so the list is non-empty there and the
`headD 0` default is never used on those runs. -/
def build_base_command (cfg : CommandConfig) (input_file : String)
    (streams : List StreamRec) : List String :=
  ["ffmpeg", "-y", "-hwaccel", "videotoolbox", "-i", input_file]
  ++ ["-map", "0:" ++ pyStrInt ((get_stream_indexes cfg streams "video").headD 0)]
  ++ (if cfg.copy_audio then
        (get_stream_indexes cfg streams "audio").flatMap
          (fun i => ["-map", "0:" ++ pyStrInt i])
      else [])
  ++ (if cfg.copy_subtitles then
        (get_stream_indexes cfg streams "subtitle").flatMap
          (fun i => ["-map", "0:" ++ pyStrInt i])
      else [])

/-- `_build_dolby_vision_settings` (lines 388-432). -/
def build_dolby_vision_settings (cfg : CommandConfig) (st : DVState)
    (target_bitrate : ℤ) : List String :=
  ["-c:v", cfg.hardware_encoder,
   "-allow_sw", if cfg.allow_sw_fallback then "1" else "0",
   "-profile:v", "main10",
   "-b:v", pyStrInt target_bitrate,
   "-maxrate", pyStrInt (pyInt ((target_bitrate : ℚ) * (3/2))),
   "-bufsize", pyStrInt (pyInt ((target_bitrate : ℚ) * 2)),
   "-map_metadata:s:v:0", "0:s:v:0",
   "-strict", "-1",
   "-copy_unknown",
   "-metadata:s:v:0", "dv_profile=" ++ pyStrOptInt st.dv_profile,
   "-metadata:s:v:0", "dv_bl_present_flag=" ++ pyStrOptInt st.dv_bl_present_flag,
   "-metadata:s:v:0", "dv_el_present_flag=" ++ pyStrOptInt st.dv_el_present_flag,
   "-metadata:s:v:0",
     "dv_bl_signal_compatibility_id=" ++
       pyStrOptInt st.dv_bl_signal_compatibility_id,
   "-max_ref_frames", cfg.max_ref_frames,
   "-quality", cfg.quality_preset.value,
   "-field_order", "progressive",
   "-probesize", "50000000",
   "-realtime", cfg.realtime,
   "-bf", cfg.b_frames,
   "-g", cfg.group_of_pictures,
   "-tag:v", "hvc1"]

/-- `_build_hardware_encoding_settings` (lines 434-467). -/
def build_hardware_encoding_settings (cfg : CommandConfig)
    (target_bitrate : ℤ) (vs : StreamRec) : List String :=
  ["-c:v", cfg.hardware_encoder,
   "-b:v", pyStrInt target_bitrate,
   "-maxrate", pyStrInt (pyInt ((target_bitrate : ℚ) * (3/2))),
   "-bufsize", pyStrInt (pyInt ((target_bitrate : ℚ) * 2)),
   "-tag:v", "hvc1",
   "-allow_sw", if cfg.allow_sw_fallback then "1" else "0",
   "-profile:v", "main10",
   "-quality", cfg.quality_preset.value,
   "-colorspace", vs.color_space.getD "bt2020nc",
   "-field_order", "progressive",
   "-probesize", "50000000",
   "-max_ref_frames", cfg.max_ref_frames,
   "-g", cfg.group_of_pictures,
   "-realtime", cfg.realtime,
   "-bf", cfg.b_frames]

/-- The `x265_params` list of `_build_software_encoding_settings`
(lines 471-480). -/
def x265_params (cfg : CommandConfig) (target_bitrate : ℤ)
    (vs : StreamRec) : List String :=
  ["bitrate=" ++ pyStrInt (target_bitrate.fdiv 1000),
   "hdr10=1",
   "colorprim=" ++ vs.color_primaries.getD "bt2020",
   "transfer=" ++ vs.color_transfer.getD "smpte2084",
   "colormatrix=" ++ vs.color_space.getD "bt2020nc",
   "repeat-headers=1",
   "max-cll=" ++ cfg.hdr_max_cll,
   "master-display=" ++ cfg.hdr_master_display]

/-- `_build_software_encoding_settings` (lines 469-493). -/
def build_software_encoding_settings (cfg : CommandConfig)
    (target_bitrate : ℤ) (vs : StreamRec) : List String :=
  ["-c:v", cfg.fallback_encoder,
   "-preset", cfg.preset.value,
   "-x265-params", pyJoin ":" (x265_params cfg target_bitrate vs),
   "-profile:v", "main10",
   "-pix_fmt", "yuv420p10le"]

/-- `_build_video_encoding_settings` (lines 495-502). -/
def build_video_encoding_settings (cfg : CommandConfig) (use_hw : Bool)
    (st : DVState) (target_bitrate : ℤ) (vs : StreamRec) : List String :=
  if use_hw && st.has_dolby_vision then
    build_dolby_vision_settings cfg st target_bitrate
  else if use_hw then
    build_hardware_encoding_settings cfg target_bitrate vs
  else build_software_encoding_settings cfg target_bitrate vs

/-- `_build_audio_subtitle_settings` (lines 504-530). -/
def build_audio_subtitle_settings (cfg : CommandConfig) : List String :=
  (if cfg.copy_audio then ["-c:a", "copy", "-b:a", cfg.audio_bitrate]
   else ["-c:a", cfg.audio_codec, "-b:a", cfg.audio_bitrate])
  ++ (if cfg.copy_subtitles then ["-c:s", "copy"] else [])

/-- `dolby_vision_metadata` (`ffmpeg_configs.py`). -/
def dolby_vision_metadata : List String :=
  ["-map_metadata", "0",
   "-metadata:s:v", "hdr_version=1.0",
   "-metadata:s:v", "mastering_display_metadata_present=1",
   "-metadata:s:v", "encoder=hevc_videotoolbox",
   "-metadata:s:v", "BT.2020_compatibility=1",
   "-metadata:s:v", "max_content_light_level=1000",
   "-metadata:s:v", "max_frame_average_light_level=400",
   "-metadata:s:v", "apple_hdr_profile=8.4",
   "-metadata:s:v", "apple_display_primaries=bt2020",
   "-metadata:s:a", "encoder=FFmpeg",
   "-metadata:s:a", "dolby_digital_plus=1",
   "-metadata:s:a", "dolby_atmos=1",
   "-metadata:s:a", "spatial_audio=1",
   "-metadata:s:a", "apple_spatial_audio=1",
   "-map_chapters", "0",
   "-max_muxing_queue_size", "4096"]

/-- `hevc_metadata` (`ffmpeg_configs.py`). -/
def hevc_metadata : List String :=
  ["-map_metadata", "0",
   "-metadata:s:v", "encoder=hevc_videotoolbox",
   "-metadata:s:v", "BT.2020_compatibility=1",
   "-metadata:s:v", "max_content_light_level=1000",
   "-metadata:s:v", "max_frame_average_light_level=400",
   "-metadata:s:v", "apple_hdr_profile=8.4",
   "-metadata:s:v", "apple_display_primaries=bt2020",
   "-metadata:s:a", "encoder=FFmpeg",
   "-metadata:s:a", "dolby_digital_plus=1",
   "-metadata:s:a", "dolby_atmos=1",
   "-metadata:s:a", "spatial_audio=1",
   "-metadata:s:a", "apple_spatial_audio=1",
   "-map_chapters", "0",
   "-max_muxing_queue_size", "4096"]

/-- `_build_command` (lines 308-347): run Dolby Vision detection, compute
`use_hw` (after `_check_hardware_support` the cached capability flag
`hw_support` is a boolean, so `use_hw =
config.use_hardware_acceleration and hw_support`), check a video stream
exists (`_get_video_stream` raises `ValueError` otherwise), then
concatenate base command, video settings, audio/subtitle settings, the
Dolby Vision or plain-HEVC trailer, and the output path. -/
def build_command (cfg : CommandConfig) (streams : List StreamRec)
    (hw_support : Bool) (input_file output_path : String)
    (target_bitrate : ℤ) : Except ErrKind (List String) :=
  let st := check_dolby_vision streams
  let use_hw := cfg.use_hardware_acceleration && hw_support
  match streams.find? (fun s => s.codec_type == "video") with
  | none => .error .valueError
  | some vs =>
    .ok (build_base_command cfg input_file streams
      ++ build_video_encoding_settings cfg use_hw st target_bitrate vs
      ++ build_audio_subtitle_settings cfg
      ++ (if use_hw && st.has_dolby_vision then dolby_vision_metadata
          else hevc_metadata)
      ++ [output_path])

/-! ## Dolby-Vision-specific tokens (claim C6)

The Dolby-Vision-specific material of a built command consists of the four
`dv_*` passthrough metadata values of `_build_dolby_vision_settings` (all
starting with `"dv_"`) and the two tokens that distinguish the
`dolby_vision_metadata` trailer from the `hevc_metadata` trailer. -/

/-- Is the first list a prefix of the second? -/
def isPre : List Char → List Char → Bool
  | [], _ => true
  | _ :: _, [] => false
  | a :: as, b :: bs => a == b && isPre as bs

/-- A Dolby-Vision-specific token, at character-list level: it starts with
`"dv_"`, or is one of the two tokens occurring in the Dolby Vision trailer
but not in the plain-HEVC trailer. -/
def dvLikeL (l : List Char) : Bool :=
  isPre "dv_".data l || l == "hdr_version=1.0".data ||
    l == "mastering_display_metadata_present=1".data

/-- A Dolby-Vision-specific token. -/
def dvLikeToken (t : String) : Bool := dvLikeL t.data

/-- Some Dolby-Vision-specific token occurs in the command. -/
def dvTokensPresent (cmd : List String) : Bool := cmd.any dvLikeToken

/-- A character list whose head is none of `d`, `h`, `m` is never a
Dolby-Vision-specific token. -/
theorem dvLikeL_head (c : Char) (l : List Char) (hc : (c == 'd') = false)
    (hh : (c == 'h') = false) (hm : (c == 'm') = false) :
    dvLikeL (c :: l) = false := by
  unfold dvLikeL
  have e1 : "dv_".data = ['d', 'v', '_'] := by decide
  have e2 : "hdr_version=1.0".data = 'h' :: "dr_version=1.0".data := by decide
  have e3 : "mastering_display_metadata_present=1".data =
    'm' :: "astering_display_metadata_present=1".data := by decide
  rw [e1, e2, e3]
  simp [isPre, List.cons_beq_cons]
  refine ⟨⟨?_, ?_⟩, ?_⟩
  · intro h; subst h; simp at hc
  · intro h; subst h; simp at hh
  · intro h; subst h; simp at hm

/-- A token starting with a prefix whose head is none of `d`, `h`, `m` is
never Dolby-Vision-specific. -/
theorem dvLike_append_head (pre : String) (x : String) (c : Char)
    (hp : pre.data.head? = some c) (hc : (c == 'd') = false)
    (hh : (c == 'h') = false) (hm : (c == 'm') = false) :
    dvLikeToken (pre ++ x) = false := by
  show dvLikeL ((pre ++ x).data) = false
  rw [String.data_append]
  cases hd : pre.data with
  | nil => rw [hd] at hp; exact absurd hp (by simp)
  | cons c0 l =>
    rw [hd] at hp
    simp only [List.head?_cons, Option.some.injEq] at hp
    rw [List.cons_append]
    subst hp
    exact dvLikeL_head c0 _ hc hh hm

/-- `digitChar10` always yields a digit character. -/
theorem digitChar10_isDigit (n : ℕ) : (digitChar10 n).isDigit = true := by
  unfold digitChar10
  repeat' split
  all_goals decide

/-- Every character rendered by `natDigits` is a digit. -/
theorem natDigits_digits (f : ℕ) :
    ∀ (n : ℕ) (c : Char), c ∈ natDigits f n → c.isDigit = true := by
  induction f with
  | zero => intro n c h; exact absurd h (by simp [natDigits])
  | succ f ih =>
    intro n c h
    rw [natDigits] at h
    split at h
    · simp at h
      rw [h]
      exact digitChar10_isDigit n
    · rw [List.mem_append] at h
      rcases h with h | h
      · exact ih _ _ h
      · simp at h
        rw [h]
        exact digitChar10_isDigit _

/-- With non-zero fuel `natDigits` renders at least one character. -/
theorem natDigits_ne_nil (f n : ℕ) (hf : f ≠ 0) : natDigits f n ≠ [] := by
  cases f with
  | zero => exact absurd rfl hf
  | succ f =>
    rw [natDigits]
    split
    · simp
    · simp

/-- A digit character never equals a given non-digit character. -/
theorem isDigit_beq_false (c d : Char) (h : c.isDigit = true)
    (hd : d.isDigit = false) : (c == d) = false := by
  cases hcd : c == d with
  | false => rfl
  | true =>
    rw [beq_iff_eq] at hcd
    rw [hcd] at h
    rw [h] at hd
    exact absurd hd (by simp)

/-- The decimal rendering of a natural number is never a
Dolby-Vision-specific token. -/
theorem pyStrNat_no_dv (n : ℕ) : dvLikeToken (pyStrNat n) = false := by
  show dvLikeL (natDigits (n + 1) n) = false
  cases hnd : natDigits (n + 1) n with
  | nil => exact absurd hnd (natDigits_ne_nil _ _ (by simp))
  | cons c l =>
    have hc : c.isDigit = true := by
      refine natDigits_digits (n + 1) n c ?_
      rw [hnd]
      simp
    exact dvLikeL_head c l (isDigit_beq_false c 'd' hc (by decide))
      (isDigit_beq_false c 'h' hc (by decide))
      (isDigit_beq_false c 'm' hc (by decide))

/-- The decimal rendering of an integer is never a Dolby-Vision-specific
token. -/
theorem pyStrInt_no_dv (i : ℤ) : dvLikeToken (pyStrInt i) = false := by
  unfold pyStrInt
  split
  · show dvLikeL (("-" ++ pyStrNat i.natAbs).data) = false
    rw [String.data_append]
    have e : "-".data = ['-'] := by decide
    rw [e]
    exact dvLikeL_head '-' _ (by decide) (by decide) (by decide)
  · exact pyStrNat_no_dv _

/-- Videotoolbox quality presets are never Dolby-Vision-specific. -/
theorem qvalue_no_dv (q : EncodingPresetVideotoolbox) :
    dvLikeToken q.value = false := by
  cases q <;> decide

/-- x265 preset names are never Dolby-Vision-specific. -/
theorem pvalue_no_dv (p : EncodingPreset) : dvLikeToken p.value = false := by
  cases p <;> decide

/-- The colon-joined x265 parameter token starts with `bitrate=`, so it is
never Dolby-Vision-specific. -/
theorem x265_join_no_dv (cfg : CommandConfig) (b : ℤ) (vs : StreamRec) :
    dvLikeToken (pyJoin ":" (x265_params cfg b vs)) = false := by
  rw [x265_params, pyJoin, String.append_assoc]
  exact dvLike_append_head "bitrate=" _ 'b' (by decide) (by decide) (by decide)
    (by decide)

/-- The base command contains no Dolby-Vision-specific token (given a
benign input path). -/
theorem base_command_no_dv (cfg : CommandConfig) (input : String)
    (streams : List StreamRec) (hin : dvLikeToken input = false) :
    (build_base_command cfg input streams).any dvLikeToken = false := by
  rw [List.any_eq_false]
  intro x hx
  unfold build_base_command at hx
  simp only [List.mem_append] at hx
  have hmap : ∀ i : ℤ, ¬dvLikeToken ("0:" ++ pyStrInt i) = true := by
    intro i
    rw [dvLike_append_head "0:" _ '0' (by decide) (by decide) (by decide)
      (by decide)]
    simp
  rcases hx with ((hx | hx) | hx) | hx
  · fin_cases hx <;> simp [hin] <;> decide
  · fin_cases hx
    · decide
    · exact hmap _
  · split at hx
    · obtain ⟨i, _, hx2⟩ := List.mem_flatMap.1 hx
      fin_cases hx2
      · decide
      · exact hmap _
    · exact absurd hx (by simp)
  · split at hx
    · obtain ⟨i, _, hx2⟩ := List.mem_flatMap.1 hx
      fin_cases hx2
      · decide
      · exact hmap _
    · exact absurd hx (by simp)

/-- The hardware (non-DV) settings contain no Dolby-Vision-specific token
(given benign configuration strings). -/
theorem hw_settings_no_dv (cfg : CommandConfig) (b : ℤ) (vs : StreamRec)
    (h1 : dvLikeToken cfg.hardware_encoder = false)
    (h5 : dvLikeToken cfg.realtime = false)
    (h6 : dvLikeToken cfg.b_frames = false)
    (h7 : dvLikeToken cfg.max_ref_frames = false)
    (h8 : dvLikeToken cfg.group_of_pictures = false)
    (hcs : dvLikeToken (vs.color_space.getD "bt2020nc") = false) :
    (build_hardware_encoding_settings cfg b vs).any dvLikeToken = false := by
  rw [List.any_eq_false]
  intro x hx
  unfold build_hardware_encoding_settings at hx
  fin_cases hx <;>
    simp [h1, h5, h6, h7, h8, hcs, pyStrInt_no_dv, qvalue_no_dv] <;>
    first | decide | (split <;> decide)

/-- The software-fallback settings contain no Dolby-Vision-specific token
(given a benign fallback-encoder name). -/
theorem sw_settings_no_dv (cfg : CommandConfig) (b : ℤ) (vs : StreamRec)
    (h2 : dvLikeToken cfg.fallback_encoder = false) :
    (build_software_encoding_settings cfg b vs).any dvLikeToken = false := by
  rw [List.any_eq_false]
  intro x hx
  unfold build_software_encoding_settings at hx
  fin_cases hx <;>
    simp [h2, pvalue_no_dv, x265_join_no_dv] <;> decide

/-- The audio/subtitle settings contain no Dolby-Vision-specific token
(given benign audio configuration strings). -/
theorem audio_settings_no_dv (cfg : CommandConfig)
    (h3 : dvLikeToken cfg.audio_codec = false)
    (h4 : dvLikeToken cfg.audio_bitrate = false) :
    (build_audio_subtitle_settings cfg).any dvLikeToken = false := by
  rw [List.any_eq_false]
  intro x hx
  unfold build_audio_subtitle_settings at hx
  simp only [List.mem_append] at hx
  rcases hx with hx | hx
  · split at hx <;> fin_cases hx <;> simp [h3, h4] <;> decide
  · split at hx
    · fin_cases hx <;> decide
    · exact absurd hx (by simp)

/-- The plain-HEVC trailer contains no Dolby-Vision-specific token. -/
theorem hevc_metadata_no_dv : hevc_metadata.any dvLikeToken = false := by
  decide

/-- The benign-configuration side condition of claim C6: none of the
free-form configuration strings that end up verbatim in the command
happens to itself look like a Dolby-Vision-specific token.  (Such strings
would be degenerate configurations; `validate_config` does not forbid
them, hence the explicit hypothesis.) -/
def benign_cfg (cfg : CommandConfig) : Prop :=
  dvLikeToken cfg.hardware_encoder = false ∧
  dvLikeToken cfg.fallback_encoder = false ∧
  dvLikeToken cfg.audio_codec = false ∧
  dvLikeToken cfg.audio_bitrate = false ∧
  dvLikeToken cfg.realtime = false ∧
  dvLikeToken cfg.b_frames = false ∧
  dvLikeToken cfg.max_ref_frames = false ∧
  dvLikeToken cfg.group_of_pictures = false

/-- The video settings contain no Dolby-Vision-specific token when the
hardware+DV branch is not taken. -/
theorem video_settings_no_dv (cfg : CommandConfig) (use_hw : Bool)
    (st : DVState) (b : ℤ) (vs : StreamRec)
    (hcond : (use_hw && st.has_dolby_vision) = false)
    (h1 : dvLikeToken cfg.hardware_encoder = false)
    (h2 : dvLikeToken cfg.fallback_encoder = false)
    (h5 : dvLikeToken cfg.realtime = false)
    (h6 : dvLikeToken cfg.b_frames = false)
    (h7 : dvLikeToken cfg.max_ref_frames = false)
    (h8 : dvLikeToken cfg.group_of_pictures = false)
    (hcs : dvLikeToken (vs.color_space.getD "bt2020nc") = false) :
    (build_video_encoding_settings cfg use_hw st b vs).any dvLikeToken = false := by
  unfold build_video_encoding_settings
  rw [hcond]
  simp only [Bool.false_eq_true, if_false]
  split
  · exact hw_settings_no_dv cfg b vs h1 h5 h6 h7 h8 hcs
  · exact sw_settings_no_dv cfg b vs h2

/-- C6: given a configuration whose free-form strings are benign (and a
benign input/output path), the built command contains a
Dolby-Vision-specific token — a `dv_profile=`/`dv_bl_present_flag=`/
`dv_el_present_flag=`/`dv_bl_signal_compatibility_id=` metadata value or a
token distinguishing the Dolby Vision trailer — if and only if the
hardware path is selected and Dolby Vision was detected; and in that case
all four `dv_*` metadata values and the Dolby Vision trailer are present in
the command. -/
theorem claim_C6 (cfg : CommandConfig) (streams : List StreamRec)
    (hw_support : Bool) (input output : String) (b : ℤ) (cmd : List String)
    (hb : benign_cfg cfg)
    (hin : dvLikeToken input = false) (hout : dvLikeToken output = false)
    (hcs : ∀ s ∈ streams, dvLikeToken (s.color_space.getD "bt2020nc") = false)
    (hok : build_command cfg streams hw_support input output b = .ok cmd) :
    (dvTokensPresent cmd = true ↔
      (cfg.use_hardware_acceleration && hw_support) = true ∧
      (check_dolby_vision streams).has_dolby_vision = true) ∧
    ((cfg.use_hardware_acceleration && hw_support) = true →
      (check_dolby_vision streams).has_dolby_vision = true →
      ("dv_profile=" ++ pyStrOptInt (check_dolby_vision streams).dv_profile) ∈ cmd ∧
      ("dv_bl_present_flag=" ++
        pyStrOptInt (check_dolby_vision streams).dv_bl_present_flag) ∈ cmd ∧
      ("dv_el_present_flag=" ++
        pyStrOptInt (check_dolby_vision streams).dv_el_present_flag) ∈ cmd ∧
      ("dv_bl_signal_compatibility_id=" ++
        pyStrOptInt (check_dolby_vision streams).dv_bl_signal_compatibility_id) ∈ cmd ∧
      "hdr_version=1.0" ∈ cmd) := by
  obtain ⟨h1, h2, h3, h4, h5, h6, h7, h8⟩ := hb
  revert hok
  unfold build_command
  cases hfind : streams.find? (fun s => s.codec_type == "video") with
  | none => intro hok; exact absurd hok (by simp)
  | some vs =>
    intro hok
    simp only [Except.ok.injEq] at hok
    subst hok
    have hcsv : dvLikeToken (vs.color_space.getD "bt2020nc") = false :=
      hcs vs (List.mem_of_find?_eq_some hfind)
    by_cases hcond : ((cfg.use_hardware_acceleration && hw_support) &&
        (check_dolby_vision streams).has_dolby_vision) = true
    · have hvset : build_video_encoding_settings cfg
          (cfg.use_hardware_acceleration && hw_support)
          (check_dolby_vision streams) b vs =
          build_dolby_vision_settings cfg (check_dolby_vision streams) b := by
        unfold build_video_encoding_settings
        rw [hcond]
        simp
      have hmm : ∀ t,
          t ∈ build_dolby_vision_settings cfg (check_dolby_vision streams) b →
          t ∈ build_base_command cfg input streams
            ++ build_video_encoding_settings cfg
                (cfg.use_hardware_acceleration && hw_support)
                (check_dolby_vision streams) b vs
            ++ build_audio_subtitle_settings cfg
            ++ (if (cfg.use_hardware_acceleration && hw_support) &&
                  (check_dolby_vision streams).has_dolby_vision then
                  dolby_vision_metadata
                else hevc_metadata)
            ++ [output] := by
        intro t ht
        exact List.mem_append.2 (Or.inl (List.mem_append.2 (Or.inl
          (List.mem_append.2 (Or.inl (List.mem_append.2
            (Or.inr (hvset ▸ ht))))))))
      have htrailer : ("hdr_version=1.0" : String) ∈
          build_base_command cfg input streams
            ++ build_video_encoding_settings cfg
                (cfg.use_hardware_acceleration && hw_support)
                (check_dolby_vision streams) b vs
            ++ build_audio_subtitle_settings cfg
            ++ (if (cfg.use_hardware_acceleration && hw_support) &&
                  (check_dolby_vision streams).has_dolby_vision then
                  dolby_vision_metadata
                else hevc_metadata)
            ++ [output] := by
        rw [if_pos hcond]
        exact List.mem_append.2 (Or.inl (List.mem_append.2 (Or.inr
          (by decide))))
      refine ⟨iff_of_true ?_ (by simpa using hcond), fun _ _ => ?_⟩
      · rw [dvTokensPresent, List.any_eq_true]
        exact ⟨"hdr_version=1.0", htrailer, by decide⟩
      · exact ⟨hmm _ (by simp [build_dolby_vision_settings]),
          hmm _ (by simp [build_dolby_vision_settings]),
          hmm _ (by simp [build_dolby_vision_settings]),
          hmm _ (by simp [build_dolby_vision_settings]), htrailer⟩
    · have hcondF : ((cfg.use_hardware_acceleration && hw_support) &&
          (check_dolby_vision streams).has_dolby_vision) = false := by
        simpa using hcond
      refine ⟨iff_of_false ?_ (fun hand => hcond (by simp [hand.1, hand.2])),
        fun ha hd => absurd (by simp [ha, hd]) hcond⟩
      rw [dvTokensPresent]
      simp only [List.any_append, Bool.or_eq_true]
      rw [base_command_no_dv cfg input streams hin,
        video_settings_no_dv cfg _ _ b vs hcondF h1 h2 h5 h6 h7 h8 hcsv,
        audio_settings_no_dv cfg h3 h4, if_neg (by simp [hcondF]),
        hevc_metadata_no_dv]
      simp [hout]

/-- Configuration of the C6 witness: the `EncodingConfig` defaults. -/
def c6wCfg : CommandConfig :=
  { copy_audio := true, copy_subtitles := true, english_audio_only := false,
    english_subtitles_only := false, use_hardware_acceleration := true,
    hardware_encoder := "hevc_videotoolbox", fallback_encoder := "libx265",
    quality_preset := .medium, allow_sw_fallback := true, audio_codec := "aac",
    audio_bitrate := "384k", preset := .medium, hdr_max_cll := "1000,400",
    hdr_master_display :=
      "G(13250,34500)B(7500,3000)R(34000,16000)WP(15635,16450)L(10000000,50)",
    realtime := "false", b_frames := "6", max_ref_frames := "4",
    group_of_pictures := "140" }

/-- The Dolby Vision side-data record of the C6 witness. -/
def c6wSideData : SideData :=
  { side_data_type := "DOVI configuration record", dv_profile := some 7,
    dv_bl_present_flag := some 1, dv_el_present_flag := some 0,
    dv_bl_signal_compatibility_id := some 6 }

/-- Probe report of the C6 witness: one Dolby Vision video stream and one
English audio stream. -/
def c6wStreams : List StreamRec :=
  [{ index := 0, codec_type := "video", tags_language := none,
     color_space := some "bt2020nc", color_transfer := some "smpte2084",
     color_primaries := some "bt2020", side_data_list := [c6wSideData] },
   { index := 1, codec_type := "audio", tags_language := some "eng",
     color_space := none, color_transfer := none, color_primaries := none,
     side_data_list := [] }]

/-- The command built in the C6 witness scenario. -/
def c6wCmd : List String :=
  match build_command c6wCfg c6wStreams true "in.mkv" "out.mkv" 20000000 with
  | .ok c => c
  | .error _ => []

/-- Witness for `claim_C6` at a concrete hardware + Dolby Vision input. -/
theorem claim_C6_witness :
    benign_cfg c6wCfg ∧
    (dvTokensPresent c6wCmd = true ↔
      (c6wCfg.use_hardware_acceleration && true) = true ∧
      (check_dolby_vision c6wStreams).has_dolby_vision = true) :=
  ⟨by unfold benign_cfg; decide,
    (claim_C6 c6wCfg c6wStreams true "in.mkv" "out.mkv" 20000000 c6wCmd
      (by unfold benign_cfg; decide) (by decide) (by decide)
      (by intro s hs; fin_cases hs <;> decide) rfl).1⟩

/-! ## The two Dolby Vision detection sites (claim C8)

`probe_file` (line 111) detects Dolby Vision as
`any("dovi_configuration_record" in str(s) for s in streams)`: a lowercase
substring test on the *textual representation* of each stream dictionary.
`_check_dolby_vision` (lines 180-186) instead looks for a side-data entry
of the first video stream whose `side_data_type` equals
`"DOVI configuration record"`.  We embed Python `str()` of the probe
dictionaries restricted to the modelled fields (absent optional fields are
rendered not at all, exactly as absent dictionary keys; the marker
containment tested here is insensitive to key order). -/

/-- A string in Python single quotes. -/
def pyQ (s : String) : String := "\x27" ++ s ++ "\x27"

/-- Rendered dictionary entry of an optional string field (absent key →
no entry). -/
def pyReprOptEntry (key : String) (v : Option String) : List String :=
  match v with
  | none => []
  | some s => [pyQ key ++ ": " ++ pyQ s]

/-- Rendered dictionary entry of an optional integer field. -/
def pyReprOptIntEntry (key : String) (v : Option ℤ) : List String :=
  match v with
  | none => []
  | some n => [pyQ key ++ ": " ++ pyStrInt n]

/-- Python `str()` of one `side_data_list` entry. -/
def pyReprSideData (sd : SideData) : String :=
  "\x7b" ++
    pyJoin ", "
      ([pyQ "side_data_type" ++ ": " ++ pyQ sd.side_data_type]
        ++ pyReprOptIntEntry "dv_profile" sd.dv_profile
        ++ pyReprOptIntEntry "dv_bl_present_flag" sd.dv_bl_present_flag
        ++ pyReprOptIntEntry "dv_el_present_flag" sd.dv_el_present_flag
        ++ pyReprOptIntEntry "dv_bl_signal_compatibility_id"
            sd.dv_bl_signal_compatibility_id)
  ++ "\x7d"

/-- Python `str()` of a probed stream dictionary (modelled fields). -/
def pyReprStream (s : StreamRec) : String :=
  "\x7b" ++
    pyJoin ", "
      ([pyQ "index" ++ ": " ++ pyStrInt s.index,
        pyQ "codec_type" ++ ": " ++ pyQ s.codec_type]
        ++ (match s.tags_language with
            | none => []
            | some lang =>
              [pyQ "tags" ++ ": \x7b" ++ pyQ "language" ++ ": " ++
                pyQ lang ++ "\x7d"])
        ++ pyReprOptEntry "color_space" s.color_space
        ++ pyReprOptEntry "color_transfer" s.color_transfer
        ++ pyReprOptEntry "color_primaries" s.color_primaries
        ++ (if s.side_data_list.isEmpty then []
            else [pyQ "side_data_list" ++ ": [" ++
              pyJoin ", " (s.side_data_list.map pyReprSideData) ++ "]"]))
  ++ "\x7d"

/-- The probe-time Dolby Vision detector feeding the bitrate model
(`probe_file`, line 111): `any("dovi_configuration_record" in str(s) for s
in self.probe_data["streams"])`. -/
def probe_has_dovi (streams : List StreamRec) : Bool :=
  streams.any (fun s => pyIn "dovi_configuration_record" (pyReprStream s))

/-- Modelled from the spec (§4.1): Dolby Vision presence iff some stream's
side-channel data contains a configuration-record marker. -/
def spec_has_config_record (streams : List StreamRec) : Bool :=
  streams.any (fun s =>
    s.side_data_list.any
      (fun sd => sd.side_data_type == "DOVI configuration record"))

/-- The probe report refuting C8: a single video stream carrying a genuine
configuration record in its side-channel data. -/
def c8SideData : SideData :=
  { side_data_type := "DOVI configuration record", dv_profile := some 8,
    dv_bl_present_flag := some 1, dv_el_present_flag := some 0,
    dv_bl_signal_compatibility_id := some 1 }

/-- The single video stream of `c8Streams`. -/
def c8Streams : List StreamRec :=
  [{ index := 0, codec_type := "video", tags_language := none,
     color_space := none, color_transfer := none, color_primaries := none,
     side_data_list := [c8SideData] }]

/-- C8 counterexample: on `c8Streams` a stream's side-channel data does
contain a configuration-record marker, and the command-build-time detector
reports Dolby Vision — but the probe-time detector feeding the bitrate
model reports no Dolby Vision, because the textual representation of the
stream contains `DOVI configuration record` and not the lowercase
underscore marker `dovi_configuration_record` it searches for.  The two
sites do not satisfy the same definition and disagree on this report. -/
theorem claim_C8_cex :
    spec_has_config_record c8Streams = true ∧
    (check_dolby_vision c8Streams).has_dolby_vision = true ∧
    probe_has_dovi c8Streams = false := by
  refine ⟨by decide, by decide, by decide⟩

/-- A probe report whose video stream marks its record with the lowercase
token the probe-time detector searches for: the detectors disagree in the
other direction. -/
def c8bSideData : SideData :=
  { side_data_type := "dovi_configuration_record", dv_profile := none,
    dv_bl_present_flag := none, dv_el_present_flag := none,
    dv_bl_signal_compatibility_id := none }

/-- The single video stream of `c8bStreams`. -/
def c8bStreams : List StreamRec :=
  [{ index := 0, codec_type := "video", tags_language := none,
     color_space := none, color_transfer := none, color_primaries := none,
     side_data_list := [c8bSideData] }]

/-- C8 (amended): the two detection sites implement different predicates.
The command-build-time detector (`_check_dolby_vision`) satisfies the
configuration-record definition restricted to the first video stream:
Dolby Vision is reported iff that stream has a side-data entry whose
`side_data_type` equals `"DOVI configuration record"`.  The probe-time
detector instead tests each stream's textual representation for the
lowercase substring `"dovi_configuration_record"`; it does not satisfy the
configuration-record definition, and the two sites can disagree (second
and third conjuncts exhibit a report where the probe-time site reports
Dolby Vision while no configuration record is present). -/
theorem claim_C8 :
    (∀ streams : List StreamRec,
      ((check_dolby_vision streams).has_dolby_vision = true ↔
        ∃ vs, streams.find? (fun s => s.codec_type == "video") = some vs ∧
          ∃ sd ∈ vs.side_data_list,
            sd.side_data_type = "DOVI configuration record")) ∧
    probe_has_dovi c8bStreams = true ∧
    (check_dolby_vision c8bStreams).has_dolby_vision = false ∧
    spec_has_config_record c8bStreams = false := by
  refine ⟨?_, by decide, by decide, by decide⟩
  intro streams
  unfold check_dolby_vision
  cases hfind : streams.find? (fun s => s.codec_type == "video") with
  | none => simp
  | some vs =>
    cases hsd : vs.side_data_list.find?
        (fun sd => sd.side_data_type == "DOVI configuration record") with
    | none =>
      simp only [hsd]
      constructor
      · intro h; exact absurd h (by simp)
      · rintro ⟨vs2, hvs2, sd, hmem, htype⟩
        simp only [Option.some.injEq] at hvs2
        subst hvs2
        have hnone := List.find?_eq_none.mp hsd sd hmem
        simp [htype] at hnone
    | some sd =>
      simp only [hsd]
      refine iff_of_true trivial ⟨vs, rfl, sd, List.mem_of_find?_eq_some hsd, ?_⟩
      have hpred := List.find?_some hsd
      simpa using hpred

end BdRemux
